import Mathlib

/-!
Shallow embedding of the `echomiddleware` Go package
(`echo_zap.go`, `body_dump.go`, `model.go`) and proofs about the claims of
its specification.  Go byte slices and strings are modelled as `List Char`
(one `Char` per byte), `io.ReadCloser` request bodies as a `BodyStream`
that either yields its bytes or fails, Go `int`/`int64` as `Int`, and
`float64` values exactly as rationals (`ℚ`).
-/

namespace EchoMiddleware

/-- Go byte slices (`[]byte`), one `Char` per byte. -/
abbrev Bytes := List Char

/-- `string(b)` on a Go byte slice. -/
def bytesToString (b : Bytes) : String := String.mk b

/-- Model of an `io.ReadCloser` request body: either a stream of bytes
(e.g. `bytes.Buffer` wrapped in `io.NopCloser`) or a stream whose read
fails with an error message. -/
inductive BodyStream where
  | bytes (data : Bytes)
  | failing (msg : String)
deriving Repr, DecidableEq

/-- `io.ReadAll(r)`: reads the whole stream, leaving it exhausted, or
fails with the stream's read error. -/
def readAll : BodyStream → Except String (Bytes × BodyStream)
  | .bytes data => .ok (data, .bytes [])
  | .failing msg => .error msg

/-! ## OpenTelemetry span contexts (external collaborator model)

`trace.SpanContext` carries a 16-byte trace ID and an 8-byte span ID;
`IsValid` holds when both are nonzero, and `String()` renders each ID as
fixed-width lowercase hex (32 resp. 16 digits). -/

/-- Lowercase hexadecimal digit for `n % 16`. -/
def hexDigit (n : Nat) : Char :=
  if n < 10 then Char.ofNat (48 + n) else Char.ofNat (87 + n)

/-- Accumulates the `w` low hex digits of `n`, most significant first. -/
def hexDigits : Nat → Nat → List Char → List Char
  | 0, _, acc => acc
  | w + 1, n, acc => hexDigits w (n / 16) (hexDigit (n % 16) :: acc)

/-- Fixed-width lowercase hex rendering, as used by `TraceID.String()`
(width 32) and `SpanID.String()` (width 16). -/
def hexPad (w : Nat) (n : Nat) : String := String.mk (hexDigits w n [])

/-- Model of `trace.SpanContext`: the trace ID and span ID as the natural
numbers encoded by their big-endian bytes. -/
structure SpanContext where
  traceID : Nat
  spanID : Nat
deriving Repr, DecidableEq

/-- `SpanContext.IsValid()`: both the trace ID and the span ID are
nonzero. -/
def SpanContext.isValid (sc : SpanContext) : Bool :=
  decide (sc.traceID ≠ 0) && decide (sc.spanID ≠ 0)

/-- `sc.TraceID().String()`. -/
def SpanContext.traceIDString (sc : SpanContext) : String := hexPad 32 sc.traceID

/-- `sc.SpanID().String()`. -/
def SpanContext.spanIDString (sc : SpanContext) : String := hexPad 16 sc.spanID

/-! ## Context stores (`echo.Context` values and `context.Context` values)

Both `c.Set`/`c.Get` and `context.WithValue`/`ctx.Value` are modelled as
an association list where the most recent binding for a key shadows the
older ones — exactly `context.WithValue`'s behaviour and observationally
the same as `echo.Context`'s map overwrite. -/

/-- A logger value: `zap.SugaredLogger` modelled by the structured
fields already bound to it with `With`. -/
structure LoggerV where
  bound : List (String × String)
deriving Repr, DecidableEq

/-- The process-wide global sugared logger `zap.S()` (no bound fields). -/
def zapSGlobal : LoggerV := ⟨[]⟩

/-- `logger.With(k1, v1, k2, v2, ...)`. -/
def LoggerV.with (l : LoggerV) (kvs : List (String × String)) : LoggerV :=
  ⟨l.bound ++ kvs⟩

/-- A value stored in a context: a string, a logger, or some other
dynamic value (which fails every type assertion we perform). -/
inductive CtxValue where
  | str (s : String)
  | logger (l : LoggerV)
  | boxed (n : Nat)
deriving Repr, DecidableEq

/-- A key/value store standing for either an `echo.Context`'s `Set`
storage or a `context.Context` chain of `WithValue` wrappers. -/
abbrev CtxStore := List (String × CtxValue)

/-- `c.Set(k, v)` / `context.WithValue(ctx, k, v)`. -/
def ctxSet (st : CtxStore) (k : String) (v : CtxValue) : CtxStore := (k, v) :: st

/-- `c.Get(k)` / `ctx.Value(k)`: the most recent binding, if any. -/
def ctxGet (st : CtxStore) (k : String) : Option CtxValue :=
  match st with
  | [] => none
  | (k', v) :: rest => if k = k' then some v else ctxGet rest k

/-! ## `model.go`: context keys, middleware, accessors -/

/-- Context key `loggerContextKey = "logger"`. -/
def loggerContextKey : String := "logger"

/-- Context key `traceIDContextKey = "trace_id"`. -/
def traceIDContextKey : String := "trace_id"

/-- Context key `spanIDContextKey = "span_id"`. -/
def spanIDContextKey : String := "span_id"

/-- Context key `requestIDContextKey = "request_id"`. -/
def requestIDContextKey : String := "request_id"

/-- Request-ID resolution as performed inside `LoggerWithContext`
(`model.go`): the outbound response header first, then the inbound
request header.  `Header.Get` returns `""` for an absent header, so both
arguments are plain strings with `""` meaning absent. -/
def resolveRequestIDLoggerCtx (reqHeaderID resHeaderID : String) : String :=
  let requestID := resHeaderID
  if requestID = "" then reqHeaderID else requestID

/-- Request-ID resolution as performed inside `OtelLoggerMiddleware`
(`model.go`): identical order — response header, then request header. -/
def resolveRequestIDOtel (reqHeaderID resHeaderID : String) : String :=
  let requestID := resHeaderID
  if requestID = "" then reqHeaderID else requestID

/-- Request-ID resolution as performed inside `ZapLogger`
(`echo_zap.go` lines 66–69): the inbound request header first, then the
outbound response header. -/
def resolveRequestIDZap (reqHeaderID resHeaderID : String) : String :=
  let requestID := reqHeaderID
  if requestID = "" then resHeaderID else requestID

/-- Result of running the `LoggerWithContext` middleware body up to the
point where it calls `next`: the updated echo-context store and the
updated request `context.Context` store. -/
structure LoggerCtxState where
  echoStore : CtxStore
  goStore : CtxStore
deriving Repr, DecidableEq

/-- The `LoggerWithContext` middleware body (`model.go`): derives
`traceID`/`spanID` from the active span when it is valid (else `""`),
resolves the request ID (response header first), builds
`zap.S().With("trace_id", traceID, "span_id", spanID, "request_id",
requestID)`, and stores the logger and the three IDs both in the echo
context and in the request's Go context. -/
def loggerWithContext (sc : SpanContext) (reqHeaderID resHeaderID : String)
    (echoStore goStore : CtxStore) : LoggerCtxState :=
  let traceID := if sc.isValid then sc.traceIDString else ""
  let spanID := if sc.isValid then sc.spanIDString else ""
  let requestID := resolveRequestIDLoggerCtx reqHeaderID resHeaderID
  let logger := zapSGlobal.with
    [(traceIDContextKey, traceID), (spanIDContextKey, spanID),
     (requestIDContextKey, requestID)]
  let e1 := ctxSet echoStore loggerContextKey (.logger logger)
  let e2 := ctxSet e1 traceIDContextKey (.str traceID)
  let e3 := ctxSet e2 spanIDContextKey (.str spanID)
  let e4 := ctxSet e3 requestIDContextKey (.str requestID)
  let g1 := ctxSet goStore loggerContextKey (.logger logger)
  let g2 := ctxSet g1 traceIDContextKey (.str traceID)
  let g3 := ctxSet g2 spanIDContextKey (.str spanID)
  let g4 := ctxSet g3 requestIDContextKey (.str requestID)
  ⟨e4, g4⟩

/-- `GetLogger(c)`: type-asserts the `"logger"` binding to a sugared
logger, falling back to the global `zap.S()`. -/
def getLogger (echoStore : CtxStore) : LoggerV :=
  match ctxGet echoStore loggerContextKey with
  | some (.logger l) => l
  | _ => zapSGlobal

/-- `GetLoggerFromContext(ctx)`. -/
def getLoggerFromContext (goStore : CtxStore) : LoggerV :=
  match ctxGet goStore loggerContextKey with
  | some (.logger l) => l
  | _ => zapSGlobal

/-- `GetTraceID(c)`: the `"trace_id"` binding if it is a string, else
`""`. -/
def getTraceID (echoStore : CtxStore) : String :=
  match ctxGet echoStore traceIDContextKey with
  | some (.str s) => s
  | _ => ""

/-- `GetTraceIDFromContext(ctx)`. -/
def getTraceIDFromContext (goStore : CtxStore) : String :=
  match ctxGet goStore traceIDContextKey with
  | some (.str s) => s
  | _ => ""

/-- `GetSpanID(c)`. -/
def getSpanID (echoStore : CtxStore) : String :=
  match ctxGet echoStore spanIDContextKey with
  | some (.str s) => s
  | _ => ""

/-- `GetSpanIDFromContext(ctx)`. -/
def getSpanIDFromContext (goStore : CtxStore) : String :=
  match ctxGet goStore spanIDContextKey with
  | some (.str s) => s
  | _ => ""

/-- `GetRequestID(c)`. -/
def getRequestID (echoStore : CtxStore) : String :=
  match ctxGet echoStore requestIDContextKey with
  | some (.str s) => s
  | _ => ""

/-- `GetRequestIDFromContext(ctx)`. -/
def getRequestIDFromContext (goStore : CtxStore) : String :=
  match ctxGet goStore requestIDContextKey with
  | some (.str s) => s
  | _ => ""

/-! ## `echo_zap.go`: the tee response writer

`responseWriter` embeds `io.MultiWriter(c.Response().Writer, resBody)`,
so each `Write(b)` appends `b` first to the real underlying writer and
then to the capture buffer (`bytes.Buffer` and the HTTP response writer
are modelled as infallible byte sinks, which is what they are in the
non-error path `io.MultiWriter` guarantees to preserve). -/

/-- The two byte sinks reachable from the wrapped writer: the real
underlying `http.ResponseWriter` and the in-memory capture buffer. -/
structure TeeState where
  underlying : Bytes
  capture : Bytes
deriving Repr, DecidableEq

/-- One `responseWriter.Write(b)` call. -/
def teeWrite (s : TeeState) (b : Bytes) : TeeState :=
  { underlying := s.underlying ++ b, capture := s.capture ++ b }

/-- A sequence of `Write` calls, in order. -/
def teeWrites (s : TeeState) : List Bytes → TeeState
  | [] => s
  | w :: ws => teeWrites (teeWrite s w) ws

/-! ## `zapcore.Field` model and `zapFieldsToMap`

A `zapcore.Field` carries a key, a type tag, an `Integer : int64`, a
`String`, and an `Interface`.  The zap constructors used by this code
store: strings in `String`; every integer family value as its two's
complement `int64` in `Integer`; a `float64` as `math.Float64bits(v)`
cast to `int64`; booleans as 0/1; `zap.Time` as Unix nanoseconds;
`zap.Duration` as nanoseconds; `zap.Reflect` payloads in `Interface`
(modelled by an opaque handle). -/

/-- The `zapcore.FieldType` tags distinguished by `zapFieldsToMap`. -/
inductive FieldType where
  | stringT | int64T | int32T | int16T | int8T
  | uint64T | uint32T | uint16T | uint8T
  | float64T | float32T | boolT | timeT | durationT | reflectT
  | otherT
deriving Repr, DecidableEq

/-- Model of `zapcore.Field`. -/
structure Field where
  key : String
  ftype : FieldType
  integer : Int := 0
  string : String := ""
  iface : Option Nat := none
deriving Repr, DecidableEq

/-- Reinterpret a 64-bit pattern (`n < 2^64`) as a signed `int64`. -/
def toInt64 (n : Nat) : Int :=
  if n < 2 ^ 63 then (n : Int) else (n : Int) - 2 ^ 64

/-- `zap.String(k, v)`. -/
def zapString (k v : String) : Field := { key := k, ftype := .stringT, string := v }

/-- `zap.Int(k, v)` / `zap.Int64(k, v)` (both produce an `Int64Type`
field whose `Integer` is the value). -/
def zapInt64 (k : String) (v : Int) : Field := { key := k, ftype := .int64T, integer := v }

/-- `zap.Uint32(k, v)` for `v < 2^32` (exact in `int64`). -/
def zapUint32 (k : String) (v : Nat) : Field := { key := k, ftype := .uint32T, integer := v }

/-- `zap.Uint64(k, v)` for `v < 2^64`: stores `int64(v)`, wrapping. -/
def zapUint64 (k : String) (v : Nat) : Field := { key := k, ftype := .uint64T, integer := toInt64 v }

/-- `zap.Float64(k, v)` where `bits = math.Float64bits(v) < 2^64`:
stores the bit pattern, reinterpreted as `int64`, in `Integer`. -/
def zapFloat64 (k : String) (bits : Nat) : Field :=
  { key := k, ftype := .float64T, integer := toInt64 bits }

/-- `zap.Bool(k, v)`. -/
def zapBool (k : String) (v : Bool) : Field :=
  { key := k, ftype := .boolT, integer := if v then 1 else 0 }

/-- `zap.Time(k, t)` for times in the `int64`-nanosecond range: stores
`t.UnixNano()`. -/
def zapTime (k : String) (unixNano : Int) : Field :=
  { key := k, ftype := .timeT, integer := unixNano }

/-- `zap.Duration(k, d)`: stores `int64(d)`, i.e. nanoseconds. -/
def zapDuration (k : String) (nanos : Int) : Field :=
  { key := k, ftype := .durationT, integer := nanos }

/-- `zap.Reflect(k, v)`: the payload as an opaque handle. -/
def zapReflect (k : String) (payload : Nat) : Field :=
  { key := k, ftype := .reflectT, iface := some payload }

/-- `zap.Error(err)`: a field the mongo-failure log line carries; its
type tag is none of the ones `zapFieldsToMap` switches on, and we only
compare it for identity, so the message is kept in `string`. -/
def zapErrorField (msg : String) : Field :=
  { key := "error", ftype := .otherT, string := msg }

/-! ### Exact `float64` arithmetic

Every finite IEEE-754 double is an integer multiple of `2^(-1074)`, so
we represent the exact value of a `float64` by the integer `k` with
value `k / 2^1074`.  This keeps all arithmetic in `Int`/`Nat`, where the
kernel can evaluate it. -/

/-- Bit length of `n` (0 for 0), by structural recursion on a fuel
bound; `fuel` must be at least the bit length.  It is only applied to
magnitudes of `int64` values, which have at most 64 bits. -/
def bitLenAux : Nat → Nat → Nat
  | 0, _ => 0
  | fuel + 1, n => if n = 0 then 0 else bitLenAux fuel (n / 2) + 1

/-- Bit length of `n < 2^70`. -/
def bitLen (n : Nat) : Nat := bitLenAux 70 n

/-- The exact value (scaled by `2^1074`) of an IEEE-754 double given its
64-bit pattern: sign, 11-bit biased exponent, 52-bit mantissa (finite
range; `expF = 2047` — infinities/NaNs — does not occur in this code's
inputs). -/
def float64OfBits (b : Nat) : Int :=
  let sign : Nat := b / 2 ^ 63
  let expF : Nat := b / 2 ^ 52 % 2 ^ 11
  let m : Nat := b % 2 ^ 52
  let mag : Nat := if expF = 0 then m else (2 ^ 52 + m) * 2 ^ (expF - 1)
  if sign = 0 then (mag : Int) else -(mag : Int)

/-- The exact value (scaled by `2^1074`) of the `float64` nearest to the
natural number `n`: round to nearest, ties to even; every `n < 2^64`
stays finite. -/
def roundFloat64Nat (n : Nat) : Nat :=
  if n < 2 ^ 53 then n * 2 ^ 1074
  else
    let sh := bitLen n - 53
    let q := n / 2 ^ sh
    let r := n % 2 ^ sh
    let half := 2 ^ (sh - 1)
    let q' := if half < r then q + 1
      else if r < half then q
      else if q % 2 = 0 then q else q + 1
    q' * 2 ^ (sh + 1074)

/-- The exact value (scaled by `2^1074`) of Go's `float64(i)` conversion
of an `int64`. -/
def int64ToFloat64 (i : Int) : Int :=
  if 0 ≤ i then (roundFloat64Nat i.toNat : Int)
  else -(roundFloat64Nat (-i).toNat : Int)

/-! ### RFC 3339 formatting (model of `time.Unix(0, ns).Format(time.RFC3339)`,
UTC location) -/

/-- Civil calendar date from days since the Unix epoch
(proleptic Gregorian): `(year, month, day)`. -/
def civilFromDays (z0 : Int) : Int × Nat × Nat :=
  let z := z0 + 719468
  let era := (if 0 ≤ z then z else z - 146096) / 146097
  let doe := (z - era * 146097).toNat
  let yoe := (doe - doe / 1460 + doe / 36524 - doe / 146096) / 365
  let y := (yoe : Int) + era * 400
  let doy := doe - (365 * yoe + yoe / 4 - yoe / 100)
  let mp := (5 * doy + 2) / 153
  let d := doy - (153 * mp + 2) / 5 + 1
  let m := if mp < 10 then mp + 3 else mp - 9
  (if m ≤ 2 then y + 1 else y, m, d)

/-- Zero-padded two-digit decimal. -/
def pad2 (n : Nat) : String :=
  if n < 10 then "0" ++ toString n else toString n

/-- Zero-padded four-digit decimal year (nonnegative years). -/
def pad4 (n : Nat) : String :=
  if n < 10 then "000" ++ toString n
  else if n < 100 then "00" ++ toString n
  else if n < 1000 then "0" ++ toString n
  else toString n

/-- `time.Unix(0, ns).Format(time.RFC3339)` in the UTC location:
`YYYY-MM-DDTHH:MM:SSZ`. -/
def formatRFC3339 (ns : Int) : String :=
  let s := Int.fdiv ns 1000000000
  let days := Int.fdiv s 86400
  let secOfDay := (s - days * 86400).toNat
  let ymd := civilFromDays days
  let hh := secOfDay / 3600
  let mm := secOfDay / 60 % 60
  let ss := secOfDay % 60
  pad4 ymd.1.toNat ++ "-" ++ pad2 ymd.2.1 ++ "-" ++ pad2 ymd.2.2 ++ "T" ++
    pad2 hh ++ ":" ++ pad2 mm ++ ":" ++ pad2 ss ++ "Z"

/-! ### The document values and `zapFieldsToMap` -/

/-- A value of the generic `map[string]interface{}` document handed to
the mongo sink. -/
inductive MapValue where
  | str (s : String)
  | int (i : Int)
  | float (scaled : Int)
  | bool (b : Bool)
  | iface (h : Option Nat)
deriving Repr, DecidableEq

/-- The per-field translation performed by the `switch` in
`zapFieldsToMap` (`echo_zap.go` lines 156–179): strings pass through;
the eight integer types store `field.Integer`; float types store
`float64(field.Integer)`; booleans store `field.Integer != 0`; times
store `time.Unix(0, field.Integer).Format(time.RFC3339)`; durations
store `field.Integer`; reflect fields store `field.Interface`; anything
else stores `field.String`. -/
def zapFieldValue (f : Field) : MapValue :=
  match f.ftype with
  | .stringT => .str f.string
  | .int64T => .int f.integer
  | .int32T => .int f.integer
  | .int16T => .int f.integer
  | .int8T => .int f.integer
  | .uint64T => .int f.integer
  | .uint32T => .int f.integer
  | .uint16T => .int f.integer
  | .uint8T => .int f.integer
  | .float64T => .float (int64ToFloat64 f.integer)
  | .float32T => .float (int64ToFloat64 f.integer)
  | .boolT => .bool (decide (f.integer ≠ 0))
  | .timeT => .str (formatRFC3339 f.integer)
  | .durationT => .int f.integer
  | .reflectT => .iface f.iface
  | .otherT => .str f.string

/-- `zapFieldsToMap(fields)` as a lookup function: the Go loop assigns
`fieldMap[field.Key]` in order, so for any key the *last* field with
that key wins; absent keys are absent from the map. -/
def zapFieldsToMap (fields : List Field) (k : String) : Option MapValue :=
  match fields with
  | [] => none
  | f :: rest =>
    match zapFieldsToMap rest k with
    | some v => some v
    | none => if k = f.key then some (zapFieldValue f) else none

/-! ## `echo_zap.go`: the `ZapLogger` middleware -/

/-- Severity levels of the zap sink used by this code. -/
inductive LogLevel where
  | error | warn | info
deriving Repr, DecidableEq

/-- One emitted log line: severity, message, and the structured
fields. -/
structure LogLine where
  level : LogLevel
  message : String
  fields : List Field
deriving Repr, DecidableEq

/-- The `switch` on `res.Status` (`echo_zap.go` lines 105–115): the
severity and message the log line is emitted with. -/
def classify (n : Int) : LogLevel × String :=
  if n ≥ 500 then (.error, "Server error")
  else if n ≥ 400 then (.warn, "Client error")
  else if n ≥ 300 then (.info, "Redirection")
  else (.info, "Success")

/-- The inbound `*http.Request` as the middleware sees it: the upgrade
check, the body stream, the header values it reads (absent = `""`), and
the request's Go context (span and values). -/
structure Request where
  isWebSocketUpgrade : Bool
  body : BodyStream
  headerRequestID : String
  method : String
  requestURI : String
  host : String
  headerStr : String
  formStr : String
  userAgent : String
  referer : String
  proto : String
  spanCtx : SpanContext
  goCtx : CtxStore
deriving Repr, DecidableEq

/-- `readAndResetBody` (`echo_zap.go` lines 139–146): `io.ReadAll` the
body, then replace it with `io.NopCloser(bytes.NewBuffer(bodyBytes))` —
a fresh stream over the same bytes. -/
def readAndResetBody (req : Request) : Except String (Bytes × Request) :=
  match readAll req.body with
  | .error e => .error e
  | .ok (bodyBytes, _) => .ok (bodyBytes, { req with body := .bytes bodyBytes })

/-- The `echo.Context` data the middleware reads besides the request:
registered path, real IP, query string, positional parameter values. -/
structure EchoInfo where
  path : String
  realIP : String
  queryString : String
  paramValues : List String
deriving Repr, DecidableEq

/-- What the downstream handler (together with echo's error handler,
which `c.Error` invokes and which writes through the already-wrapped
writer) did by the time `next` and `c.Error` return: the final
`res.Status`, the `Write` calls issued through `c.Response().Writer`,
the `X-Request-ID` response header, and the error `next` returned. -/
structure HandlerResult where
  status : Int
  writes : List Bytes
  resHeaderRequestID : String
  err : Option String
deriving Repr, DecidableEq

/-- The clock-dependent strings/numbers baked into the field list
(latency rendering, `time.Now()` renderings). -/
structure Clock where
  latencyStr : String
  nowStr : String
  nowUnix : Int
deriving Repr, DecidableEq

/-- The middleware's configuration and the persistence oracle: whether a
`*mongo.Collection` was supplied, and the outcome of the store write
when one is attempted (`some msg` = error or deadline exceeded). -/
structure MWConfig where
  hasCollection : Bool
  insertErr : Option String
deriving Repr, DecidableEq

/-- `mongoInsertFunc` (`echo_zap.go` lines 148–154): errors with
`"collection is nil"` on a nil collection, otherwise returns the store's
result. -/
def mongoInsert (collectionPresent : Bool) (storeResult : Option String) :
    Except String Unit :=
  if collectionPresent then
    match storeResult with
    | some e => .error e
    | none => .ok ()
  else .error "collection is nil"

/-- `fmt.Sprintf("%v", c.ParamValues())` for a `[]string`. -/
def fmtParams (xs : List String) : String :=
  "[" ++ String.intercalate " " xs ++ "]"

/-- The field list built by `ZapLogger` (`echo_zap.go` lines 76–99), in
source order. -/
def buildFields (clk : Clock) (req : Request) (e : EchoInfo) (status : Int)
    (requestID tracerID spanID : String) (bodyBytes resBody : Bytes) :
    List Field :=
  [ zapInt64 "status" status,
    zapString "latency" clk.latencyStr,
    zapString "request_id" requestID,
    zapString "trace_id" tracerID,
    zapString "span_id" spanID,
    zapString "time" clk.nowStr,
    zapInt64 "timestamp" clk.nowUnix,
    zapString "method" req.method,
    zapString "uri" req.requestURI,
    zapString "host" req.host,
    zapString "remote_ip" e.realIP,
    zapString "header" req.headerStr,
    zapString "path" e.path,
    zapString "query" e.queryString,
    zapString "form" req.formStr,
    zapString "param" (fmtParams e.paramValues),
    zapString "body" (bytesToString bodyBytes),
    zapString "user_agent" req.userAgent,
    zapString "referer" req.referer,
    zapString "request_proto" req.proto,
    zapString "response" (bytesToString resBody) ]

/-- Everything observable about one run of the `ZapLogger` middleware:
its return value, whether and with which body stream the handler ran,
the bytes that reached the real response writer, the bytes in the
capture buffer, the log lines emitted through the zap sink (in order),
and how many mongo insert attempts were made. -/
structure MWResult where
  result : Option String
  handlerInvoked : Bool
  handlerBody : Option BodyStream
  clientBytes : Bytes
  captureBytes : Bytes
  logs : List LogLine
  insertAttempts : Nat
deriving Repr, DecidableEq

/-- One run of the `ZapLogger(log, collection)` middleware
(`echo_zap.go` lines 28–137).  The detached persistence goroutine is
modelled synchronously at the end of the run: it only reads the
already-materialized field list and appends at most one error line to
the same sink, which is all the claims observe. -/
def zapLoggerRun (cfg : MWConfig) (clk : Clock) (req : Request) (e : EchoInfo)
    (handler : BodyStream → HandlerResult) : MWResult :=
  if req.isWebSocketUpgrade then
    let hr := handler req.body
    { result := hr.err, handlerInvoked := true, handlerBody := some req.body,
      clientBytes := hr.writes.flatten, captureBytes := [],
      logs := [], insertAttempts := 0 }
  else
    match readAndResetBody req with
    | .error msg =>
      { result := some msg, handlerInvoked := false, handlerBody := none,
        clientBytes := [], captureBytes := [], logs := [], insertAttempts := 0 }
    | .ok (bodyBytes, req') =>
      let hr := handler req'.body
      let tee := teeWrites ⟨[], []⟩ hr.writes
      let requestID := resolveRequestIDZap req.headerRequestID hr.resHeaderRequestID
      let tracerID := getTraceIDFromContext req.goCtx
      let spanID := req.spanCtx.spanIDString
      let fields := buildFields clk req e hr.status requestID tracerID spanID
        bodyBytes tee.capture
      if e.path = "/healthz" ∧ hr.status = 200 then
        { result := none, handlerInvoked := true, handlerBody := some req'.body,
          clientBytes := tee.underlying, captureBytes := tee.capture,
          logs := [], insertAttempts := 0 }
      else
        let lv := classify hr.status
        let mainLine : LogLine := ⟨lv.1, lv.2, fields⟩
        let persist : List LogLine × Nat :=
          if cfg.hasCollection then
            match mongoInsert true cfg.insertErr with
            | .error msg =>
              ([⟨.error, "Error while inserting log to mongo", [zapErrorField msg]⟩], 1)
            | .ok _ => ([], 1)
          else ([], 0)
        { result := none, handlerInvoked := true, handlerBody := some req'.body,
          clientBytes := tee.underlying, captureBytes := tee.capture,
          logs := mainLine :: persist.1, insertAttempts := persist.2 }

/-! ## `body_dump.go`: the `BodyDump` helper -/

/-- Go `strings.ReplaceAll(s, old, "")` restricted to the single-byte
patterns this code uses: each occurrence of the byte is replaced by the
replacement string (here always empty). -/
def goReplaceAllChar (s : List Char) (oldc : Char) (repl : List Char) : List Char :=
  match s with
  | [] => []
  | c :: rest =>
    (if c = oldc then repl else [c]) ++ goReplaceAllChar rest oldc repl

/-- The three sequential `strings.ReplaceAll` passes of `BodyDump`:
remove `"\n"`, then `"\r"`, then `"\t"`. -/
def sanitizeBody (s : List Char) : List Char :=
  goReplaceAllChar (goReplaceAllChar (goReplaceAllChar s '\n' []) '\r' []) '\t' []

/-- The `BodyDumpModel` struct that is JSON-marshalled into the log
line. -/
structure BodyDumpModel where
  host : String
  path : String
  method : String
  remoteAddress : String
  header : String
  status : Int
  request : String
  response : String
deriving Repr, DecidableEq

/-- The request-scoped inputs `BodyDump` reads: the `ENVIRONMENT`
configuration flag and the echo context's request/response data. -/
structure BodyDumpInput where
  environment : String
  host : String
  path : String
  method : String
  remoteAddress : String
  headerStr : String
  status : Int
deriving Repr, DecidableEq

/-- `BodyDump(c, reqBody, resBody)` (`body_dump.go`): emits one
structured line — modelled by the `BodyDumpModel` it marshals — unless
the environment is `"production"` or the path is `"/healthz"`. -/
def bodyDump (inp : BodyDumpInput) (reqBody resBody : List Char) :
    Option BodyDumpModel :=
  if inp.environment ≠ "production" ∧ inp.path ≠ "/healthz" then
    some
      { host := inp.host, path := inp.path, method := inp.method,
        remoteAddress := inp.remoteAddress, header := inp.headerStr,
        status := inp.status,
        request := String.mk (sanitizeBody reqBody),
        response := String.mk (sanitizeBody resBody) }
  else none

/-! ## Statement helpers -/

/-- A non-upgrade request whose body stream holds `data`, with arbitrary
values everywhere else. -/
def plainRequest (data : Bytes) (hdrID m uri host hs fs ua ref proto : String)
    (sc : SpanContext) (g : CtxStore) : Request :=
  { isWebSocketUpgrade := false, body := .bytes data, headerRequestID := hdrID,
    method := m, requestURI := uri, host := host, headerStr := hs, formStr := fs,
    userAgent := ua, referer := ref, proto := proto, spanCtx := sc, goCtx := g }

/-- A protocol-upgrade (websocket) request with arbitrary body stream
and header values. -/
def wsRequest (body : BodyStream) (hdrID m uri host hs fs ua ref proto : String)
    (sc : SpanContext) (g : CtxStore) : Request :=
  { isWebSocketUpgrade := true, body := body, headerRequestID := hdrID,
    method := m, requestURI := uri, host := host, headerStr := hs, formStr := fs,
    userAgent := ua, referer := ref, proto := proto, spanCtx := sc, goCtx := g }

/-- The severity classification exactly as the specification words it:
four bands given by explicit lower/upper bounds. -/
def classifySpec (s : Int) : LogLevel × String :=
  if 500 ≤ s then (.error, "Server error")
  else if 400 ≤ s ∧ s < 500 then (.warn, "Client error")
  else if 300 ≤ s ∧ s < 400 then (.info, "Redirection")
  else (.info, "Success")

/-! ## Helper lemmas -/

/-- A run of tee writes appends the concatenation of the writes to both
sinks. -/
theorem teeWrites_eq (ws : List Bytes) (s : TeeState) :
    teeWrites s ws =
      ⟨s.underlying ++ ws.flatten, s.capture ++ ws.flatten⟩ := by
  induction ws generalizing s with
  | nil => simp [teeWrites]
  | cons w ws ih => simp [teeWrites, teeWrite, ih]

/-! ## Claims -/

/-- C1: for every request body byte sequence, `readAndResetBody` returns
exactly those bytes and leaves the request's body as a fresh readable
copy of the same bytes, so inside `ZapLogger` the downstream handler
receives a stream that re-reads to the identical byte sequence
(capture/re-read round trip). -/
theorem c1_request_body_roundtrip (cfg : MWConfig) (clk : Clock) (e : EchoInfo)
    (handler : BodyStream → HandlerResult) (data : Bytes)
    (hdrID m uri host hs fs ua ref proto : String) (sc : SpanContext)
    (g : CtxStore) :
    readAndResetBody (plainRequest data hdrID m uri host hs fs ua ref proto sc g) =
      .ok (data, plainRequest data hdrID m uri host hs fs ua ref proto sc g) ∧
    (zapLoggerRun cfg clk (plainRequest data hdrID m uri host hs fs ua ref proto sc g)
        e handler).handlerBody = some (.bytes data) ∧
    readAll (.bytes data) = .ok (data, .bytes []) := by
  refine ⟨rfl, ?_, rfl⟩
  simp only [zapLoggerRun, plainRequest, readAndResetBody, readAll,
    Bool.false_eq_true, if_false]
  split <;> rfl

/-- C2: every write through the wrapped response writer is forwarded to
the real underlying writer and duplicated into the capture buffer, so
after any sequence of writes both hold exactly the concatenation of the
written chunks, in order; inside `ZapLogger` the client bytes and the
captured response bytes are both exactly what the handler wrote. -/
theorem c2_response_tee_exact :
    (∀ ws : List Bytes,
      (teeWrites ⟨[], []⟩ ws).underlying = ws.flatten ∧
      (teeWrites ⟨[], []⟩ ws).capture = ws.flatten) ∧
    (∀ (cfg : MWConfig) (clk : Clock) (e : EchoInfo)
      (handler : BodyStream → HandlerResult) (data : Bytes)
      (hdrID m uri host hs fs ua ref proto : String) (sc : SpanContext)
      (g : CtxStore),
      (zapLoggerRun cfg clk (plainRequest data hdrID m uri host hs fs ua ref proto sc g)
          e handler).clientBytes = (handler (.bytes data)).writes.flatten ∧
      (zapLoggerRun cfg clk (plainRequest data hdrID m uri host hs fs ua ref proto sc g)
          e handler).captureBytes = (handler (.bytes data)).writes.flatten) := by
  constructor
  · intro ws
    rw [teeWrites_eq]
    exact ⟨rfl, rfl⟩
  · intro cfg clk e handler data hdrID m uri host hs fs ua ref proto sc g
    simp only [zapLoggerRun, plainRequest, readAndResetBody, readAll, teeWrites_eq,
      Bool.false_eq_true, if_false]
    constructor <;> (split <;> simp)

/-- C3: the severity classification is total with four mutually
exclusive, collectively exhaustive bands, evaluated from the highest
threshold down, boundaries inclusive of the band they start: `≥ 500 →`
Error/"Server error", `[400, 500) →` Warn/"Client error", `[300, 400) →`
Info/"Redirection", everything else Info/"Success"; in particular 300,
400, 500 start their bands, 599 is Error and 200 and 101 are Success. -/
theorem c3_classify_bands :
    (∀ s : Int, classify s = classifySpec s) ∧
    (∀ s : Int,
      ((500 ≤ s) ↔ classify s = (.error, "Server error")) ∧
      ((400 ≤ s ∧ s < 500) ↔ classify s = (.warn, "Client error")) ∧
      ((300 ≤ s ∧ s < 400) ↔ classify s = (.info, "Redirection")) ∧
      ((s < 300) ↔ classify s = (.info, "Success"))) ∧
    classify 500 = (.error, "Server error") ∧
    classify 400 = (.warn, "Client error") ∧
    classify 300 = (.info, "Redirection") ∧
    classify 599 = (.error, "Server error") ∧
    classify 200 = (.info, "Success") ∧
    classify 101 = (.info, "Success") := by
  refine ⟨?_, ?_, by decide, by decide, by decide, by decide, by decide, by decide⟩
  · intro s
    simp only [classify, classifySpec]
    split_ifs <;> first | rfl | omega
  · intro s
    simp only [classify]
    split_ifs <;> refine ⟨?_, ?_, ?_, ?_⟩ <;> constructor <;> intro hh <;>
      first | rfl | omega | (exfalso; revert hh; decide)

/-- C4: a request whose registered path is "/healthz" with response
status 200 produces zero log lines and zero persistence attempts under
any configuration; the same path with any status other than 200 (and a
successful-or-absent store, so only the ordinary emission happens)
produces exactly one log line. -/
theorem c4_healthz_suppression :
    (∀ (cfg : MWConfig) (clk : Clock) (handler : BodyStream → HandlerResult)
      (data : Bytes) (hdrID m uri host hs fs ua ref proto : String)
      (sc : SpanContext) (g : CtxStore) (realIP qs : String) (ps : List String),
      (handler (.bytes data)).status = 200 →
      (zapLoggerRun cfg clk (plainRequest data hdrID m uri host hs fs ua ref proto sc g)
          ⟨"/healthz", realIP, qs, ps⟩ handler).logs = [] ∧
      (zapLoggerRun cfg clk (plainRequest data hdrID m uri host hs fs ua ref proto sc g)
          ⟨"/healthz", realIP, qs, ps⟩ handler).insertAttempts = 0) ∧
    (∀ (hasColl : Bool) (clk : Clock) (handler : BodyStream → HandlerResult)
      (data : Bytes) (hdrID m uri host hs fs ua ref proto : String)
      (sc : SpanContext) (g : CtxStore) (realIP qs : String) (ps : List String),
      (handler (.bytes data)).status ≠ 200 →
      (zapLoggerRun ⟨hasColl, none⟩ clk
          (plainRequest data hdrID m uri host hs fs ua ref proto sc g)
          ⟨"/healthz", realIP, qs, ps⟩ handler).logs.length = 1) := by
  constructor
  · intro cfg clk handler data hdrID m uri host hs fs ua ref proto sc g realIP qs ps h
    simp only [zapLoggerRun, plainRequest, readAndResetBody, readAll,
      Bool.false_eq_true, if_false]
    rw [if_pos ⟨trivial, h⟩]
    exact ⟨rfl, rfl⟩
  · intro hasColl clk handler data hdrID m uri host hs fs ua ref proto sc g realIP qs ps h
    simp only [zapLoggerRun, plainRequest, readAndResetBody, readAll,
      Bool.false_eq_true, if_false]
    rw [if_neg (fun hc => h hc.2)]
    cases hasColl <;> rfl

/-- C4 witness: at path "/healthz", a 200 response (even with a
configured, failing store) yields no log lines and no insert attempts,
and a 503 response yields exactly one log line. -/
theorem c4_healthz_suppression_witness :
    (((fun _ => (⟨200, [], "", none⟩ : HandlerResult)) (BodyStream.bytes [])).status = 200 ∧
      (zapLoggerRun ⟨true, some "boom"⟩ ⟨"1ms", "T", 0⟩
          (plainRequest [] "" "GET" "/healthz" "h" "" "" "" "" "HTTP/1.1" ⟨0, 0⟩ [])
          ⟨"/healthz", "", "", []⟩ (fun _ => ⟨200, [], "", none⟩)).logs = [] ∧
      (zapLoggerRun ⟨true, some "boom"⟩ ⟨"1ms", "T", 0⟩
          (plainRequest [] "" "GET" "/healthz" "h" "" "" "" "" "HTTP/1.1" ⟨0, 0⟩ [])
          ⟨"/healthz", "", "", []⟩ (fun _ => ⟨200, [], "", none⟩)).insertAttempts = 0) ∧
    (((fun _ => (⟨503, [], "", none⟩ : HandlerResult)) (BodyStream.bytes [])).status ≠ 200 ∧
      (zapLoggerRun ⟨true, none⟩ ⟨"1ms", "T", 0⟩
          (plainRequest [] "" "GET" "/healthz" "h" "" "" "" "" "HTTP/1.1" ⟨0, 0⟩ [])
          ⟨"/healthz", "", "", []⟩ (fun _ => ⟨503, [], "", none⟩)).logs.length = 1) :=
  ⟨⟨by decide,
    c4_healthz_suppression.1 ⟨true, some "boom"⟩ ⟨"1ms", "T", 0⟩
      (fun _ => ⟨200, [], "", none⟩) [] "" "GET" "/healthz" "h" "" "" "" "" "HTTP/1.1"
      ⟨0, 0⟩ [] "" "" [] (by decide)⟩,
   by decide,
   c4_healthz_suppression.2 true ⟨"1ms", "T", 0⟩
      (fun _ => ⟨503, [], "", none⟩) [] "" "GET" "/healthz" "h" "" "" "" "" "HTTP/1.1"
      ⟨0, 0⟩ [] "" "" [] (by decide)⟩

/-- C5 counterexample: the claim says every resolution site prefers the
outbound response header, but `ZapLogger` prefers the inbound request
header: with request header "req-header-id" and response header
"resp-id" it resolves — and logs — "req-header-id", not "resp-id". -/
theorem c5_counterexample :
    resolveRequestIDZap "req-header-id" "resp-id" = "req-header-id" ∧
    ((zapLoggerRun ⟨false, none⟩ ⟨"1ms", "T", 0⟩
        (plainRequest [] "req-header-id" "GET" "/t" "h" "" "" "" "" "HTTP/1.1" ⟨0, 0⟩ [])
        ⟨"/t", "", "", []⟩ (fun _ => ⟨200, [], "resp-id", none⟩)).logs.map
          (fun l => l.fields.find? (fun f => f.key = "request_id"))) =
      [some (zapString "request_id" "req-header-id")] ∧
    "req-header-id" ≠ "resp-id" := by decide

/-- C5 as amended: `LoggerWithContext` and `OtelLoggerMiddleware`
prefer a pre-existing outbound response header value over the inbound
request header value, while `ZapLogger` prefers the inbound request
header value over the outbound response header value; at every site,
when both headers are absent the resolution is the empty string. -/
theorem c5_request_id_resolution :
    (∀ a b : String, b ≠ "" → resolveRequestIDLoggerCtx a b = b) ∧
    (∀ a : String, resolveRequestIDLoggerCtx a "" = a) ∧
    (∀ a b : String, b ≠ "" → resolveRequestIDOtel a b = b) ∧
    (∀ a : String, resolveRequestIDOtel a "" = a) ∧
    (∀ a b : String, a ≠ "" → resolveRequestIDZap a b = a) ∧
    (∀ b : String, resolveRequestIDZap "" b = b) ∧
    resolveRequestIDLoggerCtx "" "" = "" ∧
    resolveRequestIDOtel "" "" = "" ∧
    resolveRequestIDZap "" "" = "" := by
  refine ⟨?_, ?_, ?_, ?_, ?_, ?_, rfl, rfl, rfl⟩ <;>
    first
    | (intro a b h; simp [resolveRequestIDLoggerCtx, resolveRequestIDOtel,
        resolveRequestIDZap, h])
    | (intro a; simp [resolveRequestIDLoggerCtx, resolveRequestIDOtel,
        resolveRequestIDZap])

/-- C5 witness: the resolution orders applied at concrete header
values. -/
theorem c5_request_id_resolution_witness :
    ("y" ≠ "" ∧ resolveRequestIDLoggerCtx "x" "y" = "y") ∧
    ("y" ≠ "" ∧ resolveRequestIDOtel "x" "y" = "y") ∧
    ("x" ≠ "" ∧ resolveRequestIDZap "x" "y" = "x") ∧
    resolveRequestIDLoggerCtx "x" "" = "x" ∧
    resolveRequestIDOtel "x" "" = "x" ∧
    resolveRequestIDZap "" "y" = "y" :=
  ⟨⟨by decide, c5_request_id_resolution.1 "x" "y" (by decide)⟩,
   ⟨by decide, c5_request_id_resolution.2.2.1 "x" "y" (by decide)⟩,
   ⟨by decide, c5_request_id_resolution.2.2.2.2.1 "x" "y" (by decide)⟩,
   c5_request_id_resolution.2.1 "x",
   c5_request_id_resolution.2.2.2.1 "x",
   c5_request_id_resolution.2.2.2.2.2.1 "y"⟩

/-- C6 counterexample: a websocket-upgrade request does invoke the
downstream handler but produces zero log lines, not the one log line the
claim asserts. -/
theorem c6_counterexample :
    (zapLoggerRun ⟨false, none⟩ ⟨"1ms", "T", 0⟩
        (wsRequest (.bytes []) "" "GET" "/t" "h" "" "" "" "" "HTTP/1.1" ⟨0, 0⟩ [])
        ⟨"/t", "", "", []⟩ (fun _ => ⟨101, [], "", none⟩)).handlerInvoked = true ∧
    ¬ (zapLoggerRun ⟨false, none⟩ ⟨"1ms", "T", 0⟩
        (wsRequest (.bytes []) "" "GET" "/t" "h" "" "" "" "" "HTTP/1.1" ⟨0, 0⟩ [])
        ⟨"/t", "", "", []⟩ (fun _ => ⟨101, [], "", none⟩)).logs.length = 1 := by
  decide

/-- C6 as amended: for every protocol-upgrade (websocket) request,
`ZapLogger` captures no request or response body, passes the original
body stream untouched to the downstream handler (which it always
invokes), returns the handler's own result, and emits zero log lines and
zero persistence attempts. -/
theorem c6_websocket_passthrough (cfg : MWConfig) (clk : Clock) (e : EchoInfo)
    (handler : BodyStream → HandlerResult) (body : BodyStream)
    (hdrID m uri host hs fs ua ref proto : String) (sc : SpanContext)
    (g : CtxStore) :
    (zapLoggerRun cfg clk (wsRequest body hdrID m uri host hs fs ua ref proto sc g)
        e handler).handlerInvoked = true ∧
    (zapLoggerRun cfg clk (wsRequest body hdrID m uri host hs fs ua ref proto sc g)
        e handler).handlerBody = some body ∧
    (zapLoggerRun cfg clk (wsRequest body hdrID m uri host hs fs ua ref proto sc g)
        e handler).captureBytes = [] ∧
    (zapLoggerRun cfg clk (wsRequest body hdrID m uri host hs fs ua ref proto sc g)
        e handler).logs = [] ∧
    (zapLoggerRun cfg clk (wsRequest body hdrID m uri host hs fs ua ref proto sc g)
        e handler).insertAttempts = 0 ∧
    (zapLoggerRun cfg clk (wsRequest body hdrID m uri host hs fs ua ref proto sc g)
        e handler).result = (handler body).err ∧
    (zapLoggerRun cfg clk (wsRequest body hdrID m uri host hs fs ua ref proto sc g)
        e handler).clientBytes = (handler body).writes.flatten := by
  simp [zapLoggerRun, wsRequest]

/-- C7: with a configured persistence target whose write fails (or times
out), the run makes exactly one insert attempt (never retried) and emits
exactly one additional error-level log line tagged with the store error
after the ordinary log line; the request's result, client bytes, capture
and ordinary log line are identical to a run with persistence disabled;
and with a nil target no attempt is made and the middleware still
returns nil. -/
theorem c7_persistence_isolation :
    (∀ (clk : Clock) (handler : BodyStream → HandlerResult) (data : Bytes)
      (hdrID m uri host hs fs ua ref proto : String) (sc : SpanContext)
      (g : CtxStore) (e : EchoInfo) (errMsg : String),
      ¬(e.path = "/healthz" ∧ (handler (.bytes data)).status = 200) →
      (zapLoggerRun ⟨true, some errMsg⟩ clk
          (plainRequest data hdrID m uri host hs fs ua ref proto sc g) e handler).insertAttempts = 1 ∧
      (zapLoggerRun ⟨false, none⟩ clk
          (plainRequest data hdrID m uri host hs fs ua ref proto sc g) e handler).logs.length = 1 ∧
      (zapLoggerRun ⟨true, some errMsg⟩ clk
          (plainRequest data hdrID m uri host hs fs ua ref proto sc g) e handler).logs =
        (zapLoggerRun ⟨false, none⟩ clk
          (plainRequest data hdrID m uri host hs fs ua ref proto sc g) e handler).logs ++
          [⟨.error, "Error while inserting log to mongo", [zapErrorField errMsg]⟩] ∧
      (zapLoggerRun ⟨true, some errMsg⟩ clk
          (plainRequest data hdrID m uri host hs fs ua ref proto sc g) e handler).result =
        (zapLoggerRun ⟨false, none⟩ clk
          (plainRequest data hdrID m uri host hs fs ua ref proto sc g) e handler).result ∧
      (zapLoggerRun ⟨true, some errMsg⟩ clk
          (plainRequest data hdrID m uri host hs fs ua ref proto sc g) e handler).clientBytes =
        (zapLoggerRun ⟨false, none⟩ clk
          (plainRequest data hdrID m uri host hs fs ua ref proto sc g) e handler).clientBytes ∧
      (zapLoggerRun ⟨true, some errMsg⟩ clk
          (plainRequest data hdrID m uri host hs fs ua ref proto sc g) e handler).captureBytes =
        (zapLoggerRun ⟨false, none⟩ clk
          (plainRequest data hdrID m uri host hs fs ua ref proto sc g) e handler).captureBytes) ∧
    (∀ (ins : Option String) (clk : Clock) (handler : BodyStream → HandlerResult)
      (data : Bytes) (hdrID m uri host hs fs ua ref proto : String)
      (sc : SpanContext) (g : CtxStore) (e : EchoInfo),
      (zapLoggerRun ⟨false, ins⟩ clk
          (plainRequest data hdrID m uri host hs fs ua ref proto sc g) e handler).insertAttempts = 0 ∧
      (zapLoggerRun ⟨false, ins⟩ clk
          (plainRequest data hdrID m uri host hs fs ua ref proto sc g) e handler).result = none) := by
  constructor
  · intro clk handler data hdrID m uri host hs fs ua ref proto sc g e errMsg h
    simp only [zapLoggerRun, plainRequest, readAndResetBody, readAll, mongoInsert,
      Bool.false_eq_true, if_false]
    simp only [if_neg h]
    simp
  · intro ins clk handler data hdrID m uri host hs fs ua ref proto sc g e
    simp only [zapLoggerRun, plainRequest, readAndResetBody, readAll,
      Bool.false_eq_true, if_false]
    constructor <;> (split <;> rfl)

/-- C7 witness: a 503 exchange on "/t" with a failing store — the run
with the failing store appends exactly the mongo error line to the logs
of the persistence-disabled run. -/
theorem c7_persistence_isolation_witness :
    (¬((⟨"/t", "", "", []⟩ : EchoInfo).path = "/healthz" ∧
        ((fun _ => (⟨503, [], "", none⟩ : HandlerResult)) (BodyStream.bytes [])).status = 200)) ∧
    (zapLoggerRun ⟨true, some "insert failed"⟩ ⟨"1ms", "T", 0⟩
        (plainRequest [] "" "GET" "/t" "h" "" "" "" "" "HTTP/1.1" ⟨0, 0⟩ []) ⟨"/t", "", "", []⟩
        (fun _ => ⟨503, [], "", none⟩)).logs =
      (zapLoggerRun ⟨false, none⟩ ⟨"1ms", "T", 0⟩
        (plainRequest [] "" "GET" "/t" "h" "" "" "" "" "HTTP/1.1" ⟨0, 0⟩ []) ⟨"/t", "", "", []⟩
        (fun _ => ⟨503, [], "", none⟩)).logs ++
        [⟨.error, "Error while inserting log to mongo", [zapErrorField "insert failed"]⟩] :=
  ⟨by decide,
   (c7_persistence_isolation.1 ⟨"1ms", "T", 0⟩ (fun _ => ⟨503, [], "", none⟩) [] ""
      "GET" "/t" "h" "" "" "" "" "HTTP/1.1" ⟨0, 0⟩ [] ⟨"/t", "", "", []⟩
      "insert failed" (by decide)).2.2.1⟩

/-- The hex digits of a fixed width render have exactly that width. -/
theorem hexDigits_length (w : Nat) : ∀ (n : Nat) (acc : List Char),
    (hexDigits w n acc).length = w + acc.length := by
  induction w with
  | zero => intro n acc; simp [hexDigits]
  | succ w ih =>
    intro n acc
    simp [hexDigits, ih]
    omega

/-- A fixed positive-width hex rendering is never the empty string. -/
theorem hexPad_ne_empty (w n : Nat) (hw : w ≠ 0) : hexPad w n ≠ "" := by
  intro h
  have hd : hexDigits w n [] = [] := congrArg String.data h
  have hlen := hexDigits_length w n []
  rw [hd] at hlen
  simp at hlen
  omega

/-- C8: after `LoggerWithContext`, an invalid active span leaves all
trace/span accessors returning the empty string; a valid span makes the
request-scoped accessors and their context-scoped twins return
identical values with non-empty trace and span IDs; and every accessor
on a store with no bound value returns the empty string (IDs) or the
global logger, never failing. -/
theorem c8_accessor_consistency :
    (∀ (sc : SpanContext) (reqH resH : String) (est gst : CtxStore),
      sc.isValid = false →
      getTraceID (loggerWithContext sc reqH resH est gst).echoStore = "" ∧
      getSpanID (loggerWithContext sc reqH resH est gst).echoStore = "" ∧
      getTraceIDFromContext (loggerWithContext sc reqH resH est gst).goStore = "" ∧
      getSpanIDFromContext (loggerWithContext sc reqH resH est gst).goStore = "") ∧
    (∀ (sc : SpanContext) (reqH resH : String) (est gst : CtxStore),
      sc.isValid = true →
      getTraceID (loggerWithContext sc reqH resH est gst).echoStore =
        getTraceIDFromContext (loggerWithContext sc reqH resH est gst).goStore ∧
      getSpanID (loggerWithContext sc reqH resH est gst).echoStore =
        getSpanIDFromContext (loggerWithContext sc reqH resH est gst).goStore ∧
      getRequestID (loggerWithContext sc reqH resH est gst).echoStore =
        getRequestIDFromContext (loggerWithContext sc reqH resH est gst).goStore ∧
      getLogger (loggerWithContext sc reqH resH est gst).echoStore =
        getLoggerFromContext (loggerWithContext sc reqH resH est gst).goStore ∧
      getTraceID (loggerWithContext sc reqH resH est gst).echoStore ≠ "" ∧
      getSpanID (loggerWithContext sc reqH resH est gst).echoStore ≠ "") ∧
    (getTraceID [] = "" ∧ getSpanID [] = "" ∧ getRequestID [] = "" ∧
      getLogger [] = zapSGlobal ∧ getTraceIDFromContext [] = "" ∧
      getSpanIDFromContext [] = "" ∧ getRequestIDFromContext [] = "" ∧
      getLoggerFromContext [] = zapSGlobal) := by
  refine ⟨?_, ?_, rfl, rfl, rfl, rfl, rfl, rfl, rfl, rfl⟩
  · intro sc reqH resH est gst h
    simp [loggerWithContext, ctxSet, ctxGet, getTraceID, getSpanID,
      getTraceIDFromContext, getSpanIDFromContext, loggerContextKey,
      traceIDContextKey, spanIDContextKey, requestIDContextKey, h]
  · intro sc reqH resH est gst h
    simp only [loggerWithContext, ctxSet, ctxGet, getTraceID, getSpanID,
      getRequestID, getLogger, getTraceIDFromContext, getSpanIDFromContext,
      getRequestIDFromContext, getLoggerFromContext, loggerContextKey,
      traceIDContextKey, spanIDContextKey, requestIDContextKey, h, if_true]
    refine ⟨by simp, by simp, by simp, by simp, ?_, ?_⟩
    · exact hexPad_ne_empty 32 sc.traceID (by decide)
    · exact hexPad_ne_empty 16 sc.spanID (by decide)

/-- C8 witness: the invalid span `⟨0, 0⟩` yields empty IDs and the valid
span `⟨1, 2⟩` yields matching, non-empty IDs through both accessor
families. -/
theorem c8_accessor_consistency_witness :
    ((SpanContext.mk 0 0).isValid = false ∧
      getTraceID (loggerWithContext ⟨0, 0⟩ "" "" [] []).echoStore = "" ∧
      getSpanID (loggerWithContext ⟨0, 0⟩ "" "" [] []).echoStore = "" ∧
      getTraceIDFromContext (loggerWithContext ⟨0, 0⟩ "" "" [] []).goStore = "" ∧
      getSpanIDFromContext (loggerWithContext ⟨0, 0⟩ "" "" [] []).goStore = "") ∧
    ((SpanContext.mk 1 2).isValid = true ∧
      getTraceID (loggerWithContext ⟨1, 2⟩ "r" "s" [] []).echoStore =
        getTraceIDFromContext (loggerWithContext ⟨1, 2⟩ "r" "s" [] []).goStore ∧
      getSpanID (loggerWithContext ⟨1, 2⟩ "r" "s" [] []).echoStore =
        getSpanIDFromContext (loggerWithContext ⟨1, 2⟩ "r" "s" [] []).goStore ∧
      getRequestID (loggerWithContext ⟨1, 2⟩ "r" "s" [] []).echoStore =
        getRequestIDFromContext (loggerWithContext ⟨1, 2⟩ "r" "s" [] []).goStore ∧
      getLogger (loggerWithContext ⟨1, 2⟩ "r" "s" [] []).echoStore =
        getLoggerFromContext (loggerWithContext ⟨1, 2⟩ "r" "s" [] []).goStore ∧
      getTraceID (loggerWithContext ⟨1, 2⟩ "r" "s" [] []).echoStore ≠ "" ∧
      getSpanID (loggerWithContext ⟨1, 2⟩ "r" "s" [] []).echoStore ≠ "") :=
  ⟨⟨by decide, c8_accessor_consistency.1 ⟨0, 0⟩ "" "" [] [] (by decide)⟩,
   ⟨by decide, c8_accessor_consistency.2.1 ⟨1, 2⟩ "r" "s" [] [] (by decide)⟩⟩

/-- A single-character `strings.ReplaceAll` with empty replacement
removes exactly the occurrences of that character. -/
theorem goReplaceAllChar_empty (s : List Char) (c : Char) :
    goReplaceAllChar s c [] = s.filter (fun x => !(x = c)) := by
  induction s with
  | nil => rfl
  | cons a s ih =>
    by_cases h : a = c <;> simp [goReplaceAllChar, h, ih, List.filter_cons]

/-- The three sanitization passes equal a single filter that drops
newline, carriage return, and tab and keeps every other byte in
order. -/
theorem sanitizeBody_filter (s : List Char) :
    sanitizeBody s =
      s.filter (fun c => !(c = '\n' || c = '\r' || c = '\t')) := by
  simp only [sanitizeBody, goReplaceAllChar_empty, List.filter_filter]
  apply List.filter_congr
  intro a _
  by_cases h1 : a = '\n' <;> by_cases h2 : a = '\r' <;> by_cases h3 : a = '\t' <;>
    simp [h1, h2, h3]

/-- C9: `BodyDump` suppresses emission exactly when the ENVIRONMENT flag
is "production" or the path is "/healthz" (status plays no role);
otherwise it emits exactly one structured line whose request/response
fields are the captured bodies with every newline, carriage return and
tab removed and all other bytes preserved in order — in particular, the
request body `"{\n\t\"a\":1\r\n}"` logs as `"{\"a\":1}"`. -/
theorem c9_bodydump_gate_and_sanitize :
    (∀ (inp : BodyDumpInput) (reqBody resBody : List Char),
      bodyDump inp reqBody resBody = none ↔
        (inp.environment = "production" ∨ inp.path = "/healthz")) ∧
    (∀ (inp : BodyDumpInput) (reqBody resBody : List Char),
      inp.environment ≠ "production" → inp.path ≠ "/healthz" →
      bodyDump inp reqBody resBody = some
        { host := inp.host, path := inp.path, method := inp.method,
          remoteAddress := inp.remoteAddress, header := inp.headerStr,
          status := inp.status,
          request := String.mk (sanitizeBody reqBody),
          response := String.mk (sanitizeBody resBody) }) ∧
    (∀ s : List Char,
      sanitizeBody s = s.filter (fun c => !(c = '\n' || c = '\r' || c = '\t'))) ∧
    sanitizeBody ("\x7b\n\t\"a\":1\r\n\x7d".toList) = "\x7b\"a\":1\x7d".toList := by
  refine ⟨?_, ?_, sanitizeBody_filter, by decide⟩
  · intro inp reqBody resBody
    unfold bodyDump
    split <;> rename_i hcond
    · simp only [reduceCtorEq, false_iff]
      intro hor
      rcases hor with h1 | h2
      · exact hcond.1 h1
      · exact hcond.2 h2
    · simp only [true_iff]
      by_cases h1 : inp.environment = "production"
      · exact Or.inl h1
      · exact Or.inr (by_contra fun h2 => hcond ⟨h1, h2⟩)
  · intro inp reqBody resBody h1 h2
    unfold bodyDump
    rw [if_pos ⟨h1, h2⟩]

/-- C9 witness: the gate and the sanitizer applied at concrete inputs
(a development-environment request to "/api"). -/
theorem c9_bodydump_witness :
    ((⟨"development", "example.com", "/api", "POST", "10.0.0.1:4000", "hdr", 202⟩ :
        BodyDumpInput).environment ≠ "production" ∧
      (⟨"development", "example.com", "/api", "POST", "10.0.0.1:4000", "hdr", 202⟩ :
        BodyDumpInput).path ≠ "/healthz" ∧
      bodyDump ⟨"development", "example.com", "/api", "POST", "10.0.0.1:4000", "hdr", 202⟩
          ("\x7b\n\t\"a\":1\r\n\x7d".toList) ("first\nsecond\t".toList) =
        some ⟨"example.com", "/api", "POST", "10.0.0.1:4000", "hdr", 202,
          "\x7b\"a\":1\x7d", "firstsecond"⟩) ∧
    (bodyDump ⟨"production", "example.com", "/api", "POST", "10.0.0.1:4000", "hdr", 202⟩
        [] [] = none ↔
      (("production" : String) = "production" ∨ ("/api" : String) = "/healthz")) :=
  ⟨⟨by decide, by decide, by
    have := c9_bodydump_gate_and_sanitize.2.1
      ⟨"development", "example.com", "/api", "POST", "10.0.0.1:4000", "hdr", 202⟩
      ("\x7b\n\t\"a\":1\r\n\x7d".toList) ("first\nsecond\t".toList)
      (by decide) (by decide)
    rw [this]
    decide⟩,
   c9_bodydump_gate_and_sanitize.1
     ⟨"production", "example.com", "/api", "POST", "10.0.0.1:4000", "hdr", 202⟩ [] []⟩

set_option maxRecDepth 10000 in
/-- C10 counterexample: the claim says a floating-point field stores the
64-bit float equal to the original value.  For the field
`zap.Float64("float", 1.5)` — bit pattern 4609434218613702656, exact
value `3 * 2^1073 / 2^1074 = 1.5` — the code stores
`float64(4609434218613702656)`, i.e. the bit pattern converted as an
integer (`≈ 4.6e18`), not 1.5. -/
theorem c10_counterexample :
    zapFieldsToMap [zapFloat64 "float" 4609434218613702656] "float" =
      some (.float ((4609434218613702656 * 2 ^ 1074 : Nat) : Int)) ∧
    float64OfBits 4609434218613702656 = ((3 * 2 ^ 1073 : Nat) : Int) ∧
    zapFieldsToMap [zapFloat64 "float" 4609434218613702656] "float" ≠
      some (.float (float64OfBits 4609434218613702656)) := by
  decide

/-- C10 as amended: in the persistence document, string fields pass
through unchanged; integer-family fields store their value as a signed
64-bit integer (`uint64` values wrap through two's complement);
floating-point fields store the 64-bit float obtained by converting the
IEEE-754 bit pattern reinterpreted as a signed 64-bit integer — not the
original floating-point value; booleans store booleans; durations store
the nanosecond count; timestamps store an RFC 3339 calendar string;
reflected payloads pass through; and for any field list the map holds
the translation of the last field with each key. -/
theorem c10_field_translation :
    (∀ (k v : String), zapFieldValue (zapString k v) = .str v) ∧
    (∀ (k : String) (v : Int), zapFieldValue (zapInt64 k v) = .int v) ∧
    (∀ (k : String) (v : Nat), zapFieldValue (zapUint32 k v) = .int v) ∧
    (∀ (k : String) (v : Nat), zapFieldValue (zapUint64 k v) = .int (toInt64 v)) ∧
    (∀ (k : String) (bits : Nat),
      zapFieldValue (zapFloat64 k bits) = .float (int64ToFloat64 (toInt64 bits))) ∧
    (∀ (k : String) (b : Bool), zapFieldValue (zapBool k b) = .bool b) ∧
    (∀ (k : String) (d : Int), zapFieldValue (zapDuration k d) = .int d) ∧
    (∀ (k : String) (ns : Int), zapFieldValue (zapTime k ns) = .str (formatRFC3339 ns)) ∧
    (∀ (k : String) (p : Nat), zapFieldValue (zapReflect k p) = .iface (some p)) ∧
    (∀ (fields : List Field) (f : Field),
      zapFieldsToMap (fields ++ [f]) f.key = some (zapFieldValue f)) := by
  refine ⟨fun k v => rfl, fun k v => rfl, fun k v => rfl, fun k v => rfl,
    fun k bits => rfl, fun k b => ?_, fun k d => rfl, fun k ns => rfl,
    fun k p => rfl, ?_⟩
  · cases b <;> rfl
  · intro fields f
    induction fields with
    | nil => simp [zapFieldsToMap]
    | cons g fields ih => simp [zapFieldsToMap, ih]

end EchoMiddleware
